import Mathlib

/-!
Shallow embedding of the virtual-driver layer of the STM32_HAL_Devlopment
repository (directory `07_Virtual_Simulation`): the virtual GPIO driver
(`sim_gpio.c`), the virtual NVIC (`sim_nvic.c`) and the HAL adapter
(`sim_hal_wrapper.c`), together with theorems settling the claims about them.

Modelling conventions:
* C `uint8_t` flags that only ever hold 0/1 through the API become `Bool`;
  other `uint8_t`/`uint32_t` quantities become `Nat` (with explicit `% 2^w`
  where C truncation matters).
* Each C function that calls the random-fault helper `inject_error()` takes an
  extra argument `roll : Option Nat`, the outcome of the random draw inside
  `inject_error`: `some e` stands for a draw with `rand() % 10 == 0` and the
  injected error code `e` (`(rand() % 5) + 1` on the GPIO side,
  `(rand() % 2) + 1` on the NVIC side); `none` stands for any other draw.
  The roll is only consulted when `error_injection_enabled` is set, exactly
  as in `inject_error`.
* C handler pointers become: a `hasHandler : Bool` field (the `!= NULL` test)
  plus, for NVIC interrupt processing, an environment
  `env : Nat -> NVICState -> NVICState` giving the behaviour of the handler
  installed on each IRQ line (NVIC handlers are `void (*)(void)` acting on the
  global NVIC state).  GPIO pin handlers receive `(port, pin)` and are modelled
  by an invocation log `List (Nat × Nat)` returned by `SimulateInterrupt`.
* `printf` calls are omitted; assignments to `last_error` are kept.
* The one-shot lazy initialisation (`if (!initialized) Init();`) is elided:
  states are states of the initialised system, and `gpioInit` / `nvicInit`
  are the states produced by `VirtualGPIO_Init` / `VirtualNVIC_Init`.
-/

set_option maxRecDepth 8000

namespace STM32Sim

/-! ## Virtual GPIO driver (`sim_gpio.c`) -/

/-- `MAX_GPIO_PORTS` (GPIOA to GPIOI). -/
def MAX_GPIO_PORTS : Nat := 9

/-- `MAX_GPIO_PINS` (pins 0-15 per port). -/
def MAX_GPIO_PINS : Nat := 16

/-- `GPIO_MODE_INPUT`. -/
def GPIO_MODE_INPUT : Nat := 0

/-- `GPIO_MODE_OUTPUT`. -/
def GPIO_MODE_OUTPUT : Nat := 1

/-- `GPIO_MODE_ALTERNATE`. -/
def GPIO_MODE_ALTERNATE : Nat := 2

/-- `GPIO_MODE_ANALOG`. -/
def GPIO_MODE_ANALOG : Nat := 3

/-- `GPIO_MODE_IT_RISING`. -/
def GPIO_MODE_IT_RISING : Nat := 4

/-- `GPIO_MODE_IT_FALLING`. -/
def GPIO_MODE_IT_FALLING : Nat := 5

/-- `GPIO_MODE_IT_BOTH`. -/
def GPIO_MODE_IT_BOTH : Nat := 6

/-- `GPIO_PUPD_NONE`. -/
def GPIO_PUPD_NONE : Nat := 0

/-- `GPIO_PUPD_UP`. -/
def GPIO_PUPD_UP : Nat := 1

/-- `GPIO_PUPD_DOWN`. -/
def GPIO_PUPD_DOWN : Nat := 2

/-- `GPIO_ERROR_NONE`. -/
def GPIO_ERROR_NONE : Nat := 0

/-- `GPIO_ERROR_INVALID_PORT`. -/
def GPIO_ERROR_INVALID_PORT : Nat := 1

/-- `GPIO_ERROR_INVALID_PIN`. -/
def GPIO_ERROR_INVALID_PIN : Nat := 2

/-- `GPIO_ERROR_CONFIG`. -/
def GPIO_ERROR_CONFIG : Nat := 3

/-- `GPIO_ERROR_INTERRUPT`. -/
def GPIO_ERROR_INTERRUPT : Nat := 4

/-- `GPIO_ERROR_PINMUX`. -/
def GPIO_ERROR_PINMUX : Nat := 5

/-- C struct `VirtualGPIOPin` of `sim_gpio.c`.  `value` holds 0/1 in C and is
a `Bool` here; `irq_handler` is modelled by the `hasHandler` null-pointer bit
(GPIO handlers only produce log entries, see `VirtualGPIO_SimulateInterrupt`). -/
@[ext]
structure VirtualGPIOPin where
  mode : Nat
  outputType : Nat
  speed : Nat
  pupd : Nat
  altFunction : Nat
  value : Bool
  irqEnabled : Bool
  hasHandler : Bool
  deriving DecidableEq, Repr

/-- C struct `VirtualGPIOPort` (the `name` field `'A' + port` is display-only
and omitted).  `pins` is total on `Nat`; only indices `< 16` are meaningful. -/
@[ext]
structure VirtualGPIOPort where
  pins : Nat → VirtualGPIOPin
  clockEnabled : Bool

/-- The global state of `sim_gpio.c`: the port array plus the file-level
variables `error_injection_enabled` and `last_error`. -/
@[ext]
structure GPIOState where
  ports : Nat → VirtualGPIOPort
  errorInjectionEnabled : Bool
  lastError : Nat

/-- The default pin state established by `VirtualGPIO_Init`. -/
def defaultPin : VirtualGPIOPin :=
  { mode := GPIO_MODE_INPUT, outputType := 0, speed := 0, pupd := GPIO_PUPD_NONE
    altFunction := 0, value := false, irqEnabled := false, hasHandler := false }

/-- The state established by `VirtualGPIO_Init`: every pin at `defaultPin`,
every port clock disabled, no error, injection off. -/
def gpioInit : GPIOState :=
  { ports := fun _ => { pins := fun _ => defaultPin, clockEnabled := false }
    errorInjectionEnabled := false
    lastError := GPIO_ERROR_NONE }

/-- The pin record at `(port, pin)`: C's `gpio_ports[port].pins[pin]`. -/
def pinAt (s : GPIOState) (port pin : Nat) : VirtualGPIOPin :=
  (s.ports port).pins pin

/-- Point update of one port. -/
def updatePort (s : GPIOState) (port : Nat) (f : VirtualGPIOPort → VirtualGPIOPort) :
    GPIOState :=
  { s with ports := fun q => if q = port then f (s.ports q) else s.ports q }

/-- Point update of one pin. -/
def updatePin (s : GPIOState) (port pin : Nat) (f : VirtualGPIOPin → VirtualGPIOPin) :
    GPIOState :=
  updatePort s port fun pt =>
    { pt with pins := fun m => if m = pin then f (pt.pins m) else pt.pins m }

/-- `inject_error()` of `sim_gpio.c`: when injection is enabled and the random
draw `roll` hits (`some e`), the call fails and `last_error` becomes `e`;
`some s'` is the failed-state outcome, `none` means no error injected. -/
def gpioInject (s : GPIOState) (roll : Option Nat) : Option GPIOState :=
  if s.errorInjectionEnabled then roll.map (fun e => { s with lastError := e }) else none

/-- `VirtualGPIO_SetErrorInjection`. -/
def VirtualGPIO_SetErrorInjection (s : GPIOState) (enable : Bool) : GPIOState :=
  { s with errorInjectionEnabled := enable }

/-- `VirtualGPIO_EnableClock` (lines 126-139 of `sim_gpio.c`).  Note: the
success path does not touch `last_error`. -/
def VirtualGPIO_EnableClock (s : GPIOState) (port : Nat) (roll : Option Nat) :
    Bool × GPIOState :=
  if MAX_GPIO_PORTS ≤ port then (false, { s with lastError := GPIO_ERROR_INVALID_PORT })
  else
    match gpioInject s roll with
    | some sf => (false, sf)
    | none => (true, updatePort s port fun pt => { pt with clockEnabled := true })

/-- `VirtualGPIO_ConfigurePin` (lines 142-179): range checks, clock check,
fault roll, then writes `mode`, `output_type`, `speed`, `pupd` and clears
`last_error`. -/
def VirtualGPIO_ConfigurePin (s : GPIOState) (port pin mode outputType speed pupd : Nat)
    (roll : Option Nat) : Bool × GPIOState :=
  if MAX_GPIO_PORTS ≤ port then (false, { s with lastError := GPIO_ERROR_INVALID_PORT })
  else if MAX_GPIO_PINS ≤ pin then (false, { s with lastError := GPIO_ERROR_INVALID_PIN })
  else if (s.ports port).clockEnabled = false then
    (false, { s with lastError := GPIO_ERROR_CONFIG })
  else
    match gpioInject s roll with
    | some sf => (false, sf)
    | none =>
      let s1 := updatePin s port pin fun p =>
        { p with mode := mode, outputType := outputType, speed := speed, pupd := pupd }
      (true, { s1 with lastError := GPIO_ERROR_NONE })

/-- `VirtualGPIO_SetAltFunction` (lines 182-205).  The pin-mux warning branch
writes `last_error = GPIO_ERROR_PINMUX` but continues and overwrites it with
`GPIO_ERROR_NONE`, so the net effect is the same on both paths.  There is no
clock check. -/
def VirtualGPIO_SetAltFunction (s : GPIOState) (port pin altFunc : Nat)
    (roll : Option Nat) : Bool × GPIOState :=
  if MAX_GPIO_PORTS ≤ port ∨ MAX_GPIO_PINS ≤ pin then
    (false, { s with lastError := GPIO_ERROR_PINMUX })
  else
    match gpioInject s roll with
    | some sf => (false, sf)
    | none =>
      let s1 := updatePin s port pin fun p => { p with altFunction := altFunc }
      (true, { s1 with lastError := GPIO_ERROR_NONE })

/-- `VirtualGPIO_WritePin` (lines 208-229).  C stores `value ? 1 : 0`. -/
def VirtualGPIO_WritePin (s : GPIOState) (port pin value : Nat) (roll : Option Nat) :
    Bool × GPIOState :=
  if MAX_GPIO_PORTS ≤ port ∨ MAX_GPIO_PINS ≤ pin then
    (false, { s with lastError := GPIO_ERROR_INVALID_PORT })
  else
    match gpioInject s roll with
    | some sf => (false, sf)
    | none =>
      let s1 := updatePin s port pin fun p => { p with value := value != 0 }
      (true, { s1 with lastError := GPIO_ERROR_NONE })

/-- `VirtualGPIO_ReadPin` (lines 232-262).  `randBit` is the floating-input
draw `rand() % 2`; the result value the C code writes through the out-pointer
is returned as `some b` (`none` on failure, when C leaves `*value` untouched). -/
def VirtualGPIO_ReadPin (s : GPIOState) (port pin : Nat) (roll : Option Nat)
    (randBit : Bool) : Option Bool × GPIOState :=
  if MAX_GPIO_PORTS ≤ port ∨ MAX_GPIO_PINS ≤ pin then
    (none, { s with lastError := GPIO_ERROR_INVALID_PIN })
  else
    match gpioInject s roll with
    | some sf => (none, sf)
    | none =>
      let p := pinAt s port pin
      if p.mode = GPIO_MODE_INPUT then
        let v : Bool :=
          if p.pupd = GPIO_PUPD_UP then true
          else if p.pupd = GPIO_PUPD_DOWN then false
          else randBit
        let s1 := updatePin s port pin fun q => { q with value := v }
        (some v, { s1 with lastError := GPIO_ERROR_NONE })
      else
        (some p.value, { s with lastError := GPIO_ERROR_NONE })

/-- `VirtualGPIO_TogglePin` (lines 265-281).  The C function performs no
`inject_error()` call, so the `roll` argument is never consulted; it is kept
in the signature so that all mutating operations draw from the same random
source. -/
def VirtualGPIO_TogglePin (s : GPIOState) (port pin : Nat) (_roll : Option Nat) :
    Bool × GPIOState :=
  if MAX_GPIO_PORTS ≤ port ∨ MAX_GPIO_PINS ≤ pin then
    (false, { s with lastError := GPIO_ERROR_INVALID_PIN })
  else
    let s1 := updatePin s port pin fun p => { p with value := !p.value }
    (true, { s1 with lastError := GPIO_ERROR_NONE })

/-- `VirtualGPIO_ConfigureInterrupt` (lines 284-305): range checks, fault roll,
then writes `mode`, sets `irq_enabled = 1` and installs the handler pointer
(`hasHandler` is the `handler != NULL` bit).  There is no clock check. -/
def VirtualGPIO_ConfigureInterrupt (s : GPIOState) (port pin mode : Nat)
    (hasHandler : Bool) (roll : Option Nat) : Bool × GPIOState :=
  if MAX_GPIO_PORTS ≤ port ∨ MAX_GPIO_PINS ≤ pin then
    (false, { s with lastError := GPIO_ERROR_INTERRUPT })
  else
    match gpioInject s roll with
    | some sf => (false, sf)
    | none =>
      let s1 := updatePin s port pin fun p =>
        { p with mode := mode, irqEnabled := true, hasHandler := hasHandler }
      (true, { s1 with lastError := GPIO_ERROR_NONE })

/-- `VirtualGPIO_SimulateInterrupt` (lines 308-342).  `edge` is the C
`uint8_t` argument (1 = rising, 0 = falling).  Returns the invocation log:
`[(port, pin)]` when the installed handler is called, `[]` otherwise.  The C
function mutates no pin state (it only prints), so the state is returned
unchanged on every path. -/
def VirtualGPIO_SimulateInterrupt (s : GPIOState) (port pin edge : Nat) :
    List (Nat × Nat) × GPIOState :=
  if MAX_GPIO_PORTS ≤ port ∨ MAX_GPIO_PINS ≤ pin then ([], s)
  else
    let p := pinAt s port pin
    if p.irqEnabled = false then ([], s)
    else if (p.mode = GPIO_MODE_IT_RISING ∧ edge = 1) ∨
            (p.mode = GPIO_MODE_IT_FALLING ∧ edge = 0) ∨
            p.mode = GPIO_MODE_IT_BOTH then
      (if p.hasHandler then [(port, pin)] else [], s)
    else ([], s)

end STM32Sim

namespace STM32Sim

/-! ## Basic lemmas about the GPIO embedding -/

/-- With a non-hitting draw the fault gate never fires. -/
theorem gpioInject_none (s : GPIOState) : gpioInject s none = none := by
  unfold gpioInject
  cases s.errorInjectionEnabled <;> simp

/-- With injection enabled, a hitting draw fires the gate and only sets
`last_error`. -/
theorem gpioInject_some (s : GPIOState) (e : Nat) (h : s.errorInjectionEnabled = true) :
    gpioInject s (some e) = some { s with lastError := e } := by
  unfold gpioInject
  simp [h]

/-- A state produced by the fault gate has the same ports as the input. -/
theorem gpioInject_ports (s sf : GPIOState) (roll : Option Nat)
    (h : gpioInject s roll = some sf) : sf.ports = s.ports := by
  unfold gpioInject at h
  split at h
  · cases roll with
    | none => simp at h
    | some e => simp at h; rw [← h]
  · simp at h

/-- Reading a pin through a point update. -/
theorem pinAt_updatePin (s : GPIOState) (q m p n : Nat) (f : VirtualGPIOPin → VirtualGPIOPin) :
    pinAt (updatePin s q m f) p n
      = if p = q ∧ n = m then f (pinAt s p n) else pinAt s p n := by
  unfold pinAt updatePin updatePort
  by_cases h1 : p = q <;> by_cases h2 : n = m <;> simp [h1, h2]

/-- Enabling a clock leaves every pin record unchanged. -/
theorem pinAt_enableClock_update (s : GPIOState) (q p n : Nat) :
    pinAt (updatePort s q fun pt => { pt with clockEnabled := true }) p n = pinAt s p n := by
  unfold pinAt updatePort
  by_cases h1 : p = q <;> simp [h1]

/-- `SimulateInterrupt` mutates no state on any path. -/
theorem simulateInterrupt_state_id (s : GPIOState) (p n e : Nat) :
    (VirtualGPIO_SimulateInterrupt s p n e).2 = s := by
  simp only [VirtualGPIO_SimulateInterrupt]
  repeat' split
  all_goals rfl

/-! ## Theorems about the GPIO driver -/

/-- Claim C8: for every valid `(port, pin)` and every pin mode (the state `s`
is arbitrary, so the pin's mode is arbitrary), `TogglePin` is self-inverse:
both consecutive calls succeed and the second restores the pin's original
`value`. -/
theorem togglePin_self_inverse (s : GPIOState) (p n : Nat) (r1 r2 : Option Nat)
    (hp : p < 9) (hn : n < 16) :
    (VirtualGPIO_TogglePin s p n r1).1 = true ∧
    (VirtualGPIO_TogglePin (VirtualGPIO_TogglePin s p n r1).2 p n r2).1 = true ∧
    (pinAt (VirtualGPIO_TogglePin (VirtualGPIO_TogglePin s p n r1).2 p n r2).2 p n).value
      = (pinAt s p n).value := by
  have hrange : ¬ (MAX_GPIO_PORTS ≤ p ∨ MAX_GPIO_PINS ≤ n) := by
    simp only [MAX_GPIO_PORTS, MAX_GPIO_PINS]; omega
  refine ⟨?_, ?_, ?_⟩ <;>
    simp [VirtualGPIO_TogglePin, hrange, updatePin, updatePort, pinAt]

/-- Witness for C8 at the concrete input `(gpioInit, port 0, pin 0)`. -/
theorem togglePin_self_inverse_witness :
    (0 : Nat) < 9 ∧ (0 : Nat) < 16 ∧
    (pinAt (VirtualGPIO_TogglePin
        (VirtualGPIO_TogglePin gpioInit 0 0 none).2 0 0 none).2 0 0).value
      = (pinAt gpioInit 0 0).value :=
  ⟨by norm_num, by norm_num,
    (togglePin_self_inverse gpioInit 0 0 none none (by norm_num) (by norm_num)).2.2⟩

/-- Claim C2 (counterexample): in the freshly initialised state the clock of
port 0 is disabled, yet `VirtualGPIO_SetAltFunction` reports success and
mutates the pin's `alt_function` from 0 to 7 — the code has no clock check in
`SetAltFunction`, contradicting the claimed invariant. -/
theorem clock_gate_counterexample :
    (gpioInit.ports 0).clockEnabled = false ∧
    (VirtualGPIO_SetAltFunction gpioInit 0 0 7 none).1 = true ∧
    (pinAt (VirtualGPIO_SetAltFunction gpioInit 0 0 7 none).2 0 0).altFunction = 7 ∧
    (pinAt gpioInit 0 0).altFunction = 0 := by
  refine ⟨rfl, ?_, ?_, rfl⟩ <;>
    simp [VirtualGPIO_SetAltFunction, gpioInject_none, gpioInit, MAX_GPIO_PORTS,
      MAX_GPIO_PINS, pinAt, updatePin, updatePort, defaultPin]

/-- Claim C2 (amended): only `ConfigurePin` enforces the clock gate: with the
port's clock disabled it reports failure with `GPIO_ERROR_CONFIG` and leaves
every pin unchanged, while `SetAltFunction` and `ConfigureInterrupt` (valid
range, no injected fault) mutate the pin's configuration and report success
regardless of `clock_enabled`. -/
theorem clock_gate_configurePin_only (s : GPIOState)
    (p n mode ot sp pu af imode : Nat) (hasH : Bool) (roll : Option Nat)
    (hp : p < 9) (hn : n < 16) (hclk : (s.ports p).clockEnabled = false) :
    ((VirtualGPIO_ConfigurePin s p n mode ot sp pu roll).1 = false ∧
      (VirtualGPIO_ConfigurePin s p n mode ot sp pu roll).2.ports = s.ports ∧
      (VirtualGPIO_ConfigurePin s p n mode ot sp pu roll).2.lastError = GPIO_ERROR_CONFIG) ∧
    ((VirtualGPIO_SetAltFunction s p n af none).1 = true ∧
      pinAt (VirtualGPIO_SetAltFunction s p n af none).2 p n
        = { pinAt s p n with altFunction := af }) ∧
    ((VirtualGPIO_ConfigureInterrupt s p n imode hasH none).1 = true ∧
      pinAt (VirtualGPIO_ConfigureInterrupt s p n imode hasH none).2 p n
        = { pinAt s p n with mode := imode, irqEnabled := true, hasHandler := hasH }) := by
  have hp' : ¬ MAX_GPIO_PORTS ≤ p := by simp only [MAX_GPIO_PORTS]; omega
  have hn' : ¬ MAX_GPIO_PINS ≤ n := by simp only [MAX_GPIO_PINS]; omega
  have hrange : ¬ (MAX_GPIO_PORTS ≤ p ∨ MAX_GPIO_PINS ≤ n) := by
    simp only [MAX_GPIO_PORTS, MAX_GPIO_PINS]; omega
  refine ⟨⟨?_, ?_, ?_⟩, ⟨?_, ?_⟩, ⟨?_, ?_⟩⟩ <;>
    simp [VirtualGPIO_ConfigurePin, VirtualGPIO_SetAltFunction,
      VirtualGPIO_ConfigureInterrupt, hp', hn', hrange, hclk, gpioInject_none,
      pinAt, updatePin, updatePort]

/-- Witness for the amended C2 at `(gpioInit, port 0, pin 0)`. -/
theorem clock_gate_configurePin_only_witness :
    ((0 : Nat) < 9 ∧ (0 : Nat) < 16 ∧ (gpioInit.ports 0).clockEnabled = false) ∧
    ((VirtualGPIO_ConfigurePin gpioInit 0 0 1 0 0 0 none).1 = false ∧
      (VirtualGPIO_ConfigurePin gpioInit 0 0 1 0 0 0 none).2.ports = gpioInit.ports ∧
      (VirtualGPIO_ConfigurePin gpioInit 0 0 1 0 0 0 none).2.lastError = GPIO_ERROR_CONFIG) ∧
    ((VirtualGPIO_SetAltFunction gpioInit 0 0 7 none).1 = true ∧
      pinAt (VirtualGPIO_SetAltFunction gpioInit 0 0 7 none).2 0 0
        = { pinAt gpioInit 0 0 with altFunction := 7 }) :=
  ⟨⟨by norm_num, by norm_num, rfl⟩,
    (clock_gate_configurePin_only gpioInit 0 0 1 0 0 0 7 4 true none
      (by norm_num) (by norm_num) rfl).1,
    ((clock_gate_configurePin_only gpioInit 0 0 1 0 0 0 7 4 true none
      (by norm_num) (by norm_num) rfl).2.1)⟩

/-- Claim C3: after `ConfigureInterrupt` with trigger `t` and a non-null
handler, `SimulateInterrupt` produces exactly one handler invocation iff the
edge matches the trigger (Rising only on `edge = 1`, Falling only on
`edge = 0`, Both on either), and leaves the state unchanged; with a null
handler, or on a pin whose mode is not an interrupt variant, no handler is
invoked and the state is unchanged. -/
theorem simulateInterrupt_trigger_iff (s : GPIOState) (p n t edge : Nat)
    (hp : p < 9) (hn : n < 16)
    (ht : t = GPIO_MODE_IT_RISING ∨ t = GPIO_MODE_IT_FALLING ∨ t = GPIO_MODE_IT_BOTH)
    (hedge : edge < 2) :
    ((VirtualGPIO_SimulateInterrupt
        (VirtualGPIO_ConfigureInterrupt s p n t true none).2 p n edge).1
      = (if (t = GPIO_MODE_IT_RISING ∧ edge = 1) ∨ (t = GPIO_MODE_IT_FALLING ∧ edge = 0) ∨
            t = GPIO_MODE_IT_BOTH then [(p, n)] else []) ∧
     (VirtualGPIO_SimulateInterrupt
        (VirtualGPIO_ConfigureInterrupt s p n t true none).2 p n edge).2
      = (VirtualGPIO_ConfigureInterrupt s p n t true none).2) ∧
    ((VirtualGPIO_SimulateInterrupt
        (VirtualGPIO_ConfigureInterrupt s p n t false none).2 p n edge).1 = [] ∧
     (VirtualGPIO_SimulateInterrupt
        (VirtualGPIO_ConfigureInterrupt s p n t false none).2 p n edge).2
      = (VirtualGPIO_ConfigureInterrupt s p n t false none).2) ∧
    ((pinAt s p n).mode ≠ GPIO_MODE_IT_RISING → (pinAt s p n).mode ≠ GPIO_MODE_IT_FALLING →
     (pinAt s p n).mode ≠ GPIO_MODE_IT_BOTH →
     (VirtualGPIO_SimulateInterrupt s p n edge).1 = [] ∧
     (VirtualGPIO_SimulateInterrupt s p n edge).2 = s) := by
  have hrange : ¬ (MAX_GPIO_PORTS ≤ p ∨ MAX_GPIO_PINS ≤ n) := by
    simp only [MAX_GPIO_PORTS, MAX_GPIO_PINS]; omega
  refine ⟨⟨?_, simulateInterrupt_state_id _ _ _ _⟩,
          ⟨?_, simulateInterrupt_state_id _ _ _ _⟩, fun h4 h5 h6 => ⟨?_, simulateInterrupt_state_id _ _ _ _⟩⟩
  · rcases ht with rfl | rfl | rfl <;> interval_cases edge <;>
      simp [VirtualGPIO_ConfigureInterrupt, VirtualGPIO_SimulateInterrupt, hrange,
        gpioInject_none, pinAt, updatePin, updatePort, GPIO_MODE_IT_RISING,
        GPIO_MODE_IT_FALLING, GPIO_MODE_IT_BOTH]
  · rcases ht with rfl | rfl | rfl <;> interval_cases edge <;>
      simp [VirtualGPIO_ConfigureInterrupt, VirtualGPIO_SimulateInterrupt, hrange,
        gpioInject_none, pinAt, updatePin, updatePort, GPIO_MODE_IT_RISING,
        GPIO_MODE_IT_FALLING, GPIO_MODE_IT_BOTH]
  · cases hh : (pinAt s p n).irqEnabled <;>
      simp [VirtualGPIO_SimulateInterrupt, hrange, hh, h4, h5, h6]

/-- Witness for C3 at `(gpioInit, port 0, pin 0, trigger IT_RISING, edge 1)`. -/
theorem simulateInterrupt_trigger_iff_witness :
    ((0 : Nat) < 9 ∧ (0 : Nat) < 16 ∧ (1 : Nat) < 2) ∧
    (VirtualGPIO_SimulateInterrupt
        (VirtualGPIO_ConfigureInterrupt gpioInit 0 0 GPIO_MODE_IT_RISING true none).2
        0 0 1).1 = [(0, 0)] :=
  ⟨⟨by norm_num, by norm_num, by norm_num⟩, by
    have h := (simulateInterrupt_trigger_iff gpioInit 0 0 GPIO_MODE_IT_RISING 1
      (by norm_num) (by norm_num) (Or.inl rfl) (by norm_num)).1.1
    simpa [GPIO_MODE_IT_RISING, GPIO_MODE_IT_FALLING, GPIO_MODE_IT_BOTH] using h⟩

/-- The initialised GPIO state with error injection switched on. -/
def gpioInjOn : GPIOState := VirtualGPIO_SetErrorInjection gpioInit true

/-- Claim C6 (counterexample): with error injection enabled there is no
outcome of the random source under which `TogglePin` on a valid pin is
rejected — the C function never calls `inject_error` — and even a hitting
draw (`some 1`) leaves it mutating the pin. -/
theorem togglePin_not_gated_counterexample :
    gpioInjOn.errorInjectionEnabled = true ∧
    (¬ ∃ roll : Option Nat, (VirtualGPIO_TogglePin gpioInjOn 0 0 roll).1 = false) ∧
    (pinAt (VirtualGPIO_TogglePin gpioInjOn 0 0 (some 1)).2 0 0).value
      ≠ (pinAt gpioInjOn 0 0).value := by
  refine ⟨rfl, ?_, by decide⟩
  rintro ⟨roll, h⟩
  simp [VirtualGPIO_TogglePin, MAX_GPIO_PORTS, MAX_GPIO_PINS] at h

/-- Claim C6 (amended): with fault injection enabled, every mutating
`VirtualGPIO` call except `TogglePin` is subject to the global probability
gate: a hitting draw rejects `WritePin`, `ConfigurePin`, `SetAltFunction`,
`ConfigureInterrupt` and `EnableClock` before any port or pin state changes,
while `TogglePin` never consults the gate and always succeeds on a valid
pin. -/
theorem fault_gate_all_but_toggle (s : GPIOState)
    (e p n v mode ot sp pu af imode : Nat) (hasH : Bool)
    (hp : p < 9) (hn : n < 16) (hinj : s.errorInjectionEnabled = true)
    (hclk : (s.ports p).clockEnabled = true) :
    ((VirtualGPIO_WritePin s p n v (some e)).1 = false ∧
      (VirtualGPIO_WritePin s p n v (some e)).2.ports = s.ports) ∧
    ((VirtualGPIO_ConfigurePin s p n mode ot sp pu (some e)).1 = false ∧
      (VirtualGPIO_ConfigurePin s p n mode ot sp pu (some e)).2.ports = s.ports) ∧
    ((VirtualGPIO_SetAltFunction s p n af (some e)).1 = false ∧
      (VirtualGPIO_SetAltFunction s p n af (some e)).2.ports = s.ports) ∧
    ((VirtualGPIO_ConfigureInterrupt s p n imode hasH (some e)).1 = false ∧
      (VirtualGPIO_ConfigureInterrupt s p n imode hasH (some e)).2.ports = s.ports) ∧
    ((VirtualGPIO_EnableClock s p (some e)).1 = false ∧
      (VirtualGPIO_EnableClock s p (some e)).2.ports = s.ports) ∧
    (∀ roll : Option Nat, (VirtualGPIO_TogglePin s p n roll).1 = true) := by
  have hp' : ¬ MAX_GPIO_PORTS ≤ p := by simp only [MAX_GPIO_PORTS]; omega
  have hn' : ¬ MAX_GPIO_PINS ≤ n := by simp only [MAX_GPIO_PINS]; omega
  have hrange : ¬ (MAX_GPIO_PORTS ≤ p ∨ MAX_GPIO_PINS ≤ n) := by
    simp only [MAX_GPIO_PORTS, MAX_GPIO_PINS]; omega
  refine ⟨⟨?_, ?_⟩, ⟨?_, ?_⟩, ⟨?_, ?_⟩, ⟨?_, ?_⟩, ⟨?_, ?_⟩, fun roll => ?_⟩ <;>
    simp [VirtualGPIO_WritePin, VirtualGPIO_ConfigurePin, VirtualGPIO_SetAltFunction,
      VirtualGPIO_ConfigureInterrupt, VirtualGPIO_EnableClock, VirtualGPIO_TogglePin,
      hp', hn', hrange, hclk, gpioInject_some s e hinj]

/-- The initialised GPIO state with error injection on and the clock of every
port enabled, used to instantiate fault-gate theorems. -/
def gpioInjClk : GPIOState :=
  { gpioInit with
    errorInjectionEnabled := true
    ports := fun _ => { pins := fun _ => defaultPin, clockEnabled := true } }

/-- Witness for the amended C6 at `(gpioInjClk, port 0, pin 0)`. -/
theorem fault_gate_all_but_toggle_witness :
    ((0 : Nat) < 9 ∧ (0 : Nat) < 16 ∧ gpioInjClk.errorInjectionEnabled = true ∧
      (gpioInjClk.ports 0).clockEnabled = true) ∧
    ((VirtualGPIO_WritePin gpioInjClk 0 0 1 (some 1)).1 = false ∧
      (VirtualGPIO_WritePin gpioInjClk 0 0 1 (some 1)).2.ports = gpioInjClk.ports) ∧
    (∀ roll : Option Nat, (VirtualGPIO_TogglePin gpioInjClk 0 0 roll).1 = true) :=
  ⟨⟨by norm_num, by norm_num, rfl, rfl⟩,
    (fault_gate_all_but_toggle gpioInjClk 1 0 0 1 1 0 0 0 7 4 true
      (by norm_num) (by norm_num) rfl rfl).1,
    (fault_gate_all_but_toggle gpioInjClk 1 0 0 1 1 0 0 0 7 4 true
      (by norm_num) (by norm_num) rfl rfl).2.2.2.2.2⟩

/-! ## Traces of GPIO API calls (for claim C9) -/

/-- One call of the public `VirtualGPIO` API, with its random draws recorded
as arguments (`roll` for the fault gate, `randBit` for the floating-input
read). -/
inductive GOp where
  | enableClock (port : Nat) (roll : Option Nat)
  | configurePin (port pin mode outputType speed pupd : Nat) (roll : Option Nat)
  | setAltFunction (port pin altFunc : Nat) (roll : Option Nat)
  | writePin (port pin value : Nat) (roll : Option Nat)
  | readPin (port pin : Nat) (roll : Option Nat) (randBit : Bool)
  | togglePin (port pin : Nat) (roll : Option Nat)
  | configureInterrupt (port pin mode : Nat) (hasHandler : Bool) (roll : Option Nat)
  | simulateInterrupt (port pin edge : Nat)
  | setErrorInjection (enable : Bool)
  deriving DecidableEq

/-- The state after one API call (return values and logs discarded). -/
def runOp (s : GPIOState) : GOp → GPIOState
  | .enableClock port roll => (VirtualGPIO_EnableClock s port roll).2
  | .configurePin port pin mode ot sp pu roll =>
      (VirtualGPIO_ConfigurePin s port pin mode ot sp pu roll).2
  | .setAltFunction port pin af roll => (VirtualGPIO_SetAltFunction s port pin af roll).2
  | .writePin port pin v roll => (VirtualGPIO_WritePin s port pin v roll).2
  | .readPin port pin roll rb => (VirtualGPIO_ReadPin s port pin roll rb).2
  | .togglePin port pin roll => (VirtualGPIO_TogglePin s port pin roll).2
  | .configureInterrupt port pin mode h roll =>
      (VirtualGPIO_ConfigureInterrupt s port pin mode h roll).2
  | .simulateInterrupt port pin edge => (VirtualGPIO_SimulateInterrupt s port pin edge).2
  | .setErrorInjection b => VirtualGPIO_SetErrorInjection s b

/-- The state after a list of API calls. -/
def runTrace (s : GPIOState) (ops : List GOp) : GPIOState := ops.foldl runOp s

/-- Whether an API call is a `ConfigureInterrupt` on the pin `(p, n)`. -/
def GOp.configuresInterruptOn (p n : Nat) : GOp → Bool
  | .configureInterrupt port pin _ _ _ => port == p && pin == n
  | _ => false

/-- No single API call other than `ConfigureInterrupt` on `(p, n)` itself can
change the `irq_enabled` flag of pin `(p, n)`. -/
theorem runOp_preserves_irqEnabled (s : GPIOState) (op : GOp) (p n : Nat)
    (hop : GOp.configuresInterruptOn p n op = false) :
    (pinAt (runOp s op) p n).irqEnabled = (pinAt s p n).irqEnabled := by
  cases op with
  | enableClock port roll =>
    simp only [runOp, VirtualGPIO_EnableClock]
    split
    · rfl
    · cases h : gpioInject s roll with
      | some sf => simp [show pinAt sf p n = pinAt s p n from by
          unfold pinAt; rw [gpioInject_ports s sf roll h]]
      | none => simp [pinAt_enableClock_update]
  | configurePin port pin mode ot sp pu roll =>
    simp only [runOp, VirtualGPIO_ConfigurePin]
    split
    · rfl
    · split
      · rfl
      · split
        · rfl
        · cases h : gpioInject s roll with
          | some sf => simp [show pinAt sf p n = pinAt s p n from by
              unfold pinAt; rw [gpioInject_ports s sf roll h]]
          | none =>
            show (pinAt { updatePin s port pin _ with lastError := GPIO_ERROR_NONE } p n).irqEnabled = _
            rw [show ∀ s1 : GPIOState, pinAt { s1 with lastError := GPIO_ERROR_NONE } p n = pinAt s1 p n from fun _ => rfl]
            rw [pinAt_updatePin]
            split <;> rfl
  | setAltFunction port pin af roll =>
    simp only [runOp, VirtualGPIO_SetAltFunction]
    split
    · rfl
    · cases h : gpioInject s roll with
      | some sf => simp [show pinAt sf p n = pinAt s p n from by
          unfold pinAt; rw [gpioInject_ports s sf roll h]]
      | none =>
        show (pinAt { updatePin s port pin _ with lastError := GPIO_ERROR_NONE } p n).irqEnabled = _
        rw [show ∀ s1 : GPIOState, pinAt { s1 with lastError := GPIO_ERROR_NONE } p n = pinAt s1 p n from fun _ => rfl]
        rw [pinAt_updatePin]
        split <;> rfl
  | writePin port pin v roll =>
    simp only [runOp, VirtualGPIO_WritePin]
    split
    · rfl
    · cases h : gpioInject s roll with
      | some sf => simp [show pinAt sf p n = pinAt s p n from by
          unfold pinAt; rw [gpioInject_ports s sf roll h]]
      | none =>
        show (pinAt { updatePin s port pin _ with lastError := GPIO_ERROR_NONE } p n).irqEnabled = _
        rw [show ∀ s1 : GPIOState, pinAt { s1 with lastError := GPIO_ERROR_NONE } p n = pinAt s1 p n from fun _ => rfl]
        rw [pinAt_updatePin]
        split <;> rfl
  | readPin port pin roll rb =>
    simp only [runOp, VirtualGPIO_ReadPin]
    split
    · rfl
    · cases h : gpioInject s roll with
      | some sf =>
        show (pinAt sf p n).irqEnabled = _
        unfold pinAt
        rw [gpioInject_ports s sf roll h]
      | none =>
        simp only [pinAt, updatePin, updatePort]
        split <;> by_cases hq : p = port <;> by_cases hm : n = pin <;> simp [hq, hm]
  | togglePin port pin roll =>
    simp only [runOp, VirtualGPIO_TogglePin]
    split
    · rfl
    · show (pinAt { updatePin s port pin _ with lastError := GPIO_ERROR_NONE } p n).irqEnabled = _
      rw [show ∀ s1 : GPIOState, pinAt { s1 with lastError := GPIO_ERROR_NONE } p n = pinAt s1 p n from fun _ => rfl]
      rw [pinAt_updatePin]
      split <;> rfl
  | configureInterrupt port pin mode hh roll =>
    simp only [runOp, VirtualGPIO_ConfigureInterrupt]
    split
    · rfl
    · cases h : gpioInject s roll with
      | some sf => simp [show pinAt sf p n = pinAt s p n from by
          unfold pinAt; rw [gpioInject_ports s sf roll h]]
      | none =>
        show (pinAt { updatePin s port pin _ with lastError := GPIO_ERROR_NONE } p n).irqEnabled = _
        rw [show ∀ s1 : GPIOState, pinAt { s1 with lastError := GPIO_ERROR_NONE } p n = pinAt s1 p n from fun _ => rfl]
        rw [pinAt_updatePin]
        split
        · rename_i hpn
          exfalso
          simp only [GOp.configuresInterruptOn, Bool.and_eq_false_iff, beq_eq_false_iff_ne] at hop
          rcases hop with hq | hq <;> [exact hq hpn.1.symm; exact hq hpn.2.symm]
        · rfl
  | simulateInterrupt port pin edge =>
    simp only [runOp, simulateInterrupt_state_id]
  | setErrorInjection b =>
    rfl

/-- Running a trace with no `ConfigureInterrupt` on `(p, n)` leaves that
pin's `irq_enabled` flag as it was. -/
theorem runTrace_preserves_irqEnabled (ops : List GOp) (p n : Nat)
    (h : ∀ op ∈ ops, GOp.configuresInterruptOn p n op = false) :
    ∀ s, (pinAt (runTrace s ops) p n).irqEnabled = (pinAt s p n).irqEnabled := by
  induction ops with
  | nil => intro s; rfl
  | cons op rest ih =>
    intro s
    have h1 : GOp.configuresInterruptOn p n op = false := h op (List.mem_cons_self op rest)
    have h2 : ∀ o ∈ rest, GOp.configuresInterruptOn p n o = false := fun o ho =>
      h o (List.mem_cons_of_mem op ho)
    calc (pinAt (runTrace (runOp s op) rest) p n).irqEnabled
        = (pinAt (runOp s op) p n).irqEnabled := ih h2 (runOp s op)
      _ = (pinAt s p n).irqEnabled := runOp_preserves_irqEnabled s op p n h1

/-- Claim C9: starting from the initialised state, if no `ConfigureInterrupt`
on `(p, n)` occurs in a trace of API calls — in particular when the pin's
mode was set to an interrupt variant via `ConfigurePin` alone — then
`SimulateInterrupt` on `(p, n)` invokes no handler and changes nothing:
dispatch is gated on `irq_enabled`, which only `ConfigureInterrupt` sets. -/
theorem simulateInterrupt_needs_configureInterrupt (ops : List GOp) (p n edge : Nat)
    (h : ∀ op ∈ ops, GOp.configuresInterruptOn p n op = false) :
    (VirtualGPIO_SimulateInterrupt (runTrace gpioInit ops) p n edge).1 = [] ∧
    (VirtualGPIO_SimulateInterrupt (runTrace gpioInit ops) p n edge).2
      = runTrace gpioInit ops := by
  refine ⟨?_, simulateInterrupt_state_id _ _ _ _⟩
  have hirq : (pinAt (runTrace gpioInit ops) p n).irqEnabled = false := by
    rw [runTrace_preserves_irqEnabled ops p n h gpioInit]
    rfl
  unfold VirtualGPIO_SimulateInterrupt
  split
  · rfl
  · simp [hirq]

/-- Witness for C9: a trace that merely configures pin (0,0) into rising-edge
interrupt mode through `ConfigurePin` (after enabling the clock) never gets
its nonexistent handler invoked by `SimulateInterrupt`. -/
theorem simulateInterrupt_needs_configureInterrupt_witness :
    (∀ op ∈ [GOp.enableClock 0 none, GOp.configurePin 0 0 GPIO_MODE_IT_RISING 0 0 0 none],
      GOp.configuresInterruptOn 0 0 op = false) ∧
    (VirtualGPIO_SimulateInterrupt
      (runTrace gpioInit [GOp.enableClock 0 none, GOp.configurePin 0 0 GPIO_MODE_IT_RISING 0 0 0 none])
      0 0 1).1 = [] :=
  ⟨by decide,
    (simulateInterrupt_needs_configureInterrupt
      [GOp.enableClock 0 none, GOp.configurePin 0 0 GPIO_MODE_IT_RISING 0 0 0 none]
      0 0 1 (by decide)).1⟩

/-! ## Virtual NVIC (`sim_nvic.c`) -/

/-- `MAX_IRQ_LINES`. -/
def MAX_IRQ_LINES : Nat := 240

/-- `MAX_PRIORITY` (4-bit priority, 0 is highest urgency). -/
def MAX_PRIORITY : Nat := 15

/-- `NVIC_ERROR_NONE`. -/
def NVIC_ERROR_NONE : Nat := 0

/-- `NVIC_ERROR_INVALID_IRQ`. -/
def NVIC_ERROR_INVALID_IRQ : Nat := 1

/-- `NVIC_ERROR_PRIORITY`. -/
def NVIC_ERROR_PRIORITY : Nat := 2

/-- C struct `VirtualIRQ` of `sim_nvic.c` (the `name` string is display-only
and omitted).  `hasHandler` is the `handler != NULL` bit; the behaviour of
installed handlers is supplied separately as an environment when interrupts
are processed. -/
@[ext]
structure VirtualIRQ where
  enabled : Bool
  pending : Bool
  active : Bool
  priority : Nat
  hasHandler : Bool
  deriving DecidableEq, Repr

/-- The global state of `sim_nvic.c`: the IRQ-line array plus the file-level
variables `global_irq_enabled`, `error_injection_enabled` and `last_error`.
`lines` is total on `Nat`; only indices `< 240` are meaningful. -/
@[ext]
structure NVICState where
  lines : Nat → VirtualIRQ
  globalIrqEnabled : Bool
  errorInjectionEnabled : Bool
  lastError : Nat

/-- The IRQ-line state established by `VirtualNVIC_Init`. -/
def defaultIRQ : VirtualIRQ :=
  { enabled := false, pending := false, active := false, priority := MAX_PRIORITY
    hasHandler := false }

/-- The state established by `VirtualNVIC_Init`. -/
def nvicInit : NVICState :=
  { lines := fun _ => defaultIRQ
    globalIrqEnabled := true
    errorInjectionEnabled := false
    lastError := NVIC_ERROR_NONE }

/-- Point update of one IRQ line. -/
def updateLine (s : NVICState) (i : Nat) (f : VirtualIRQ → VirtualIRQ) : NVICState :=
  { s with lines := fun j => if j = i then f (s.lines j) else s.lines j }

/-- `inject_error()` of `sim_nvic.c`, same reading as `gpioInject`
(error codes here are `(rand() % 2) + 1`). -/
def nvicInject (s : NVICState) (roll : Option Nat) : Option NVICState :=
  if s.errorInjectionEnabled then roll.map (fun e => { s with lastError := e }) else none

/-- `VirtualNVIC_EnableIRQ` (lines 83-99 of `sim_nvic.c`). -/
def VirtualNVIC_EnableIRQ (s : NVICState) (irq : Nat) (roll : Option Nat) :
    Bool × NVICState :=
  if MAX_IRQ_LINES ≤ irq then (false, { s with lastError := NVIC_ERROR_INVALID_IRQ })
  else
    match nvicInject s roll with
    | some sf => (false, sf)
    | none =>
      let s1 := updateLine s irq fun irq => { irq with enabled := true }
      (true, { s1 with lastError := NVIC_ERROR_NONE })

/-- `VirtualNVIC_DisableIRQ` (lines 102-115; no fault roll in the C code). -/
def VirtualNVIC_DisableIRQ (s : NVICState) (irq : Nat) : Bool × NVICState :=
  if MAX_IRQ_LINES ≤ irq then (false, { s with lastError := NVIC_ERROR_INVALID_IRQ })
  else
    let s1 := updateLine s irq fun irq => { irq with enabled := false }
    (true, { s1 with lastError := NVIC_ERROR_NONE })

/-- `VirtualNVIC_SetPriority` (lines 118-140). -/
def VirtualNVIC_SetPriority (s : NVICState) (irq priority : Nat) (roll : Option Nat) :
    Bool × NVICState :=
  if MAX_IRQ_LINES ≤ irq then (false, { s with lastError := NVIC_ERROR_INVALID_IRQ })
  else if MAX_PRIORITY < priority then (false, { s with lastError := NVIC_ERROR_PRIORITY })
  else
    match nvicInject s roll with
    | some sf => (false, sf)
    | none =>
      let s1 := updateLine s irq fun irq => { irq with priority := priority }
      (true, { s1 with lastError := NVIC_ERROR_NONE })

/-- `VirtualNVIC_GetPriority` (lines 143-151): an out-of-range IRQ number
yields `MAX_PRIORITY`; the function reads but never writes the state. -/
def VirtualNVIC_GetPriority (s : NVICState) (irq : Nat) : Nat :=
  if MAX_IRQ_LINES ≤ irq then MAX_PRIORITY
  else (s.lines irq).priority

/-- `VirtualNVIC_SetHandler` (lines 154-172; no fault roll in the C code;
the name argument is display-only and omitted). -/
def VirtualNVIC_SetHandler (s : NVICState) (irq : Nat) (hasHandler : Bool) :
    Bool × NVICState :=
  if MAX_IRQ_LINES ≤ irq then (false, { s with lastError := NVIC_ERROR_INVALID_IRQ })
  else
    let s1 := updateLine s irq fun irq => { irq with hasHandler := hasHandler }
    (true, { s1 with lastError := NVIC_ERROR_NONE })

/-- `VirtualNVIC_SetPending` (lines 175-191). -/
def VirtualNVIC_SetPending (s : NVICState) (irq : Nat) (roll : Option Nat) :
    Bool × NVICState :=
  if MAX_IRQ_LINES ≤ irq then (false, { s with lastError := NVIC_ERROR_INVALID_IRQ })
  else
    match nvicInject s roll with
    | some sf => (false, sf)
    | none =>
      let s1 := updateLine s irq fun irq => { irq with pending := true }
      (true, { s1 with lastError := NVIC_ERROR_NONE })

/-- Eligibility test of `find_highest_priority_pending`:
`enabled && pending && !active`. -/
def eligibleIRQ (irq : VirtualIRQ) : Bool :=
  irq.enabled && irq.pending && !irq.active

/-- The scan loop of `find_highest_priority_pending` (lines 234-249), with an
explicit fuel mirroring `for (i = 0; i < MAX_IRQ_LINES; i++)`: `i` is the
current index, `best`/`bestPrio` the running `highest_irq`/`highest_priority`
(with `none` for `-1`). -/
def findLoop (s : NVICState) : Nat → Nat → Option Nat → Nat → Option Nat
  | 0, _, best, _ => best
  | fuel + 1, i, best, bestPrio =>
    if eligibleIRQ (s.lines i) = true ∧ (s.lines i).priority < bestPrio then
      findLoop s fuel (i + 1) (some i) (s.lines i).priority
    else
      findLoop s fuel (i + 1) best bestPrio

/-- `find_highest_priority_pending`: scan the 240 lines starting from
`highest_irq = -1`, `highest_priority = MAX_PRIORITY + 1`. -/
def find_highest_priority_pending (s : NVICState) : Option Nat :=
  findLoop s MAX_IRQ_LINES 0 none (MAX_PRIORITY + 1)

/-- `VirtualNVIC_ProcessInterrupts` (lines 252-279).  `env k` is the action
on the NVIC state of the handler installed on line `k` (a C handler is a
`void (*)(void)` mutating the globals).  The selected line gets
`pending = 0, active = 1`, the handler (if any) runs, then `active = 0`. -/
def VirtualNVIC_ProcessInterrupts (env : Nat → NVICState → NVICState) (s : NVICState) :
    NVICState :=
  if s.globalIrqEnabled = false then s
  else
    match find_highest_priority_pending s with
    | none => s
    | some k =>
      let s1 := updateLine s k fun irq => { irq with pending := false, active := true }
      let s2 := if (s1.lines k).hasHandler = true then env k s1 else s1
      updateLine s2 k fun irq => { irq with active := false }

/-- The `while` loop of `VirtualNVIC_ProcessAllPending` (lines 287-295):
`processed` is the loop counter; the loop exits when no line is eligible or
after the iteration that takes `processed` past 100. -/
def processAllLoop (env : Nat → NVICState → NVICState) (s : NVICState)
    (processed : Nat) : NVICState × Nat :=
  match find_highest_priority_pending s with
  | none => (s, processed)
  | some _ =>
    if 100 < processed + 1 then (VirtualNVIC_ProcessInterrupts env s, processed + 1)
    else processAllLoop env (VirtualNVIC_ProcessInterrupts env s) (processed + 1)
termination_by 101 - processed
decreasing_by omega

/-- `VirtualNVIC_ProcessAllPending` (lines 282-302), returning the final
state together with the number of `ProcessInterrupts` dispatch iterations
performed. -/
def VirtualNVIC_ProcessAllPending (env : Nat → NVICState → NVICState) (s : NVICState) :
    NVICState × Nat :=
  processAllLoop env s 0

/-! ## The scan of `find_highest_priority_pending` selects the first minimum -/

/-- Loop invariant argument for the scan: if the accumulator is sound for the
already-scanned prefix `[0, i)`, the final result is the first
minimum-priority eligible line of the whole scanned range (and a `none`
result means every eligible line there has priority at least 16). -/
theorem findLoop_spec (s : NVICState) :
    ∀ fuel i best bestPrio,
    (∀ j, j < i → eligibleIRQ (s.lines j) = true → bestPrio ≤ (s.lines j).priority) →
    (∀ k, best = some k →
      k < i ∧ eligibleIRQ (s.lines k) = true ∧ (s.lines k).priority = bestPrio ∧
      ∀ j, j < k → eligibleIRQ (s.lines j) = true → bestPrio < (s.lines j).priority) →
    (best = none → bestPrio = 16) →
    ((∀ k, findLoop s fuel i best bestPrio = some k →
        k < i + fuel ∧ eligibleIRQ (s.lines k) = true ∧
        (∀ j, j < i + fuel → eligibleIRQ (s.lines j) = true →
          (s.lines k).priority ≤ (s.lines j).priority) ∧
        (∀ j, j < k → eligibleIRQ (s.lines j) = true →
          (s.lines k).priority < (s.lines j).priority)) ∧
      (findLoop s fuel i best bestPrio = none →
        ∀ j, j < i + fuel → eligibleIRQ (s.lines j) = true →
          (16 : Nat) ≤ (s.lines j).priority)) := by
  intro fuel
  induction fuel with
  | zero =>
    intro i best bestPrio hbp hbest hnone
    constructor
    · intro k hk
      simp only [findLoop] at hk
      obtain ⟨hki, helig, hprio, hmin⟩ := hbest k hk
      refine ⟨by omega, helig, ?_, ?_⟩
      · intro j hj helj
        have := hbp j (by omega) helj
        omega
      · intro j hj helj
        have := hmin j hj helj
        omega
    · intro hres j hj helj
      simp only [findLoop] at hres
      have h16 := hnone hres
      have := hbp j (by omega) helj
      omega
  | succ fuel ih =>
    intro i best bestPrio hbp hbest hnone
    simp only [findLoop]
    by_cases c : eligibleIRQ (s.lines i) = true ∧ (s.lines i).priority < bestPrio
    · simp only [if_pos c]
      have hbp1 : ∀ j, j < i + 1 → eligibleIRQ (s.lines j) = true →
          (s.lines i).priority ≤ (s.lines j).priority := by
        intro j hj helj
        rcases Nat.lt_succ_iff_lt_or_eq.mp hj with hj' | rfl
        · exact le_of_lt (lt_of_lt_of_le c.2 (hbp j hj' helj))
        · exact le_refl _
      have hbest1 : ∀ k, (some i : Option Nat) = some k →
          k < i + 1 ∧ eligibleIRQ (s.lines k) = true ∧
          (s.lines k).priority = (s.lines i).priority ∧
          ∀ j, j < k → eligibleIRQ (s.lines j) = true →
            (s.lines i).priority < (s.lines j).priority := by
        intro k hk
        injection hk with hk
        subst hk
        exact ⟨Nat.lt_succ_self _, c.1, rfl,
          fun j hj helj => lt_of_lt_of_le c.2 (hbp j hj helj)⟩
      have hIH := ih (i + 1) (some i) (s.lines i).priority hbp1 hbest1 (by simp)
      constructor
      · intro k hk
        obtain ⟨hki, helig, hle, hlt⟩ := hIH.1 k hk
        exact ⟨by omega, helig, fun j hj helj => hle j (by omega) helj, hlt⟩
      · intro hres j hj helj
        exact hIH.2 hres j (by omega) helj
    · simp only [if_neg c]
      have hbp1 : ∀ j, j < i + 1 → eligibleIRQ (s.lines j) = true →
          bestPrio ≤ (s.lines j).priority := by
        intro j hj helj
        rcases Nat.lt_succ_iff_lt_or_eq.mp hj with hj' | rfl
        · exact hbp j hj' helj
        · by_contra hlt
          exact c ⟨helj, by omega⟩
      have hbest1 : ∀ k, best = some k →
          k < i + 1 ∧ eligibleIRQ (s.lines k) = true ∧
          (s.lines k).priority = bestPrio ∧
          ∀ j, j < k → eligibleIRQ (s.lines j) = true →
            bestPrio < (s.lines j).priority := by
        intro k hk
        obtain ⟨h1, h2, h3, h4⟩ := hbest k hk
        exact ⟨by omega, h2, h3, h4⟩
      have hIH := ih (i + 1) best bestPrio hbp1 hbest1 hnone
      constructor
      · intro k hk
        obtain ⟨hki, helig, hle, hlt⟩ := hIH.1 k hk
        exact ⟨by omega, helig, fun j hj helj => hle j (by omega) helj, hlt⟩
      · intro hres j hj helj
        exact hIH.2 hres j (by omega) helj

/-- The scan returns the first minimum-priority eligible line: a `some k`
result is an eligible line of minimal priority among `[0, 240)`, strictly
smaller than every eligible line before it. -/
theorem find_spec (s : NVICState) (k : Nat)
    (h : find_highest_priority_pending s = some k) :
    k < 240 ∧ eligibleIRQ (s.lines k) = true ∧
    (∀ j, j < 240 → eligibleIRQ (s.lines j) = true →
      (s.lines k).priority ≤ (s.lines j).priority) ∧
    (∀ j, j < k → eligibleIRQ (s.lines j) = true →
      (s.lines k).priority < (s.lines j).priority) := by
  have := (findLoop_spec s MAX_IRQ_LINES 0 none (MAX_PRIORITY + 1)
    (fun j hj _ => absurd hj (by omega))
    (fun k hk => by cases hk)
    (fun _ => rfl)).1 k h
  simpa [MAX_IRQ_LINES] using this

/-- A `none` result means no line with a legal (`≤ 15`) priority is
eligible. -/
theorem find_none_spec (s : NVICState)
    (h : find_highest_priority_pending s = none)
    (hp : ∀ i, i < 240 → (s.lines i).priority ≤ 15) :
    ∀ j, j < 240 → eligibleIRQ (s.lines j) = false := by
  intro j hj
  by_contra hne
  have helj : eligibleIRQ (s.lines j) = true := by
    cases he : eligibleIRQ (s.lines j)
    · exact absurd he hne
    · rfl
  have h16 := (findLoop_spec s MAX_IRQ_LINES 0 none (MAX_PRIORITY + 1)
    (fun j hj _ => absurd hj (by omega))
    (fun k hk => by cases hk)
    (fun _ => rfl)).2 h j (by simpa [MAX_IRQ_LINES] using hj) helj
  have := hp j hj
  omega

/-! ## Theorems about the NVIC -/

/-- Claim C1: in every NVIC state with global interrupts enabled, legal
(`≤ 15`) priorities, and at least one eligible line
(`enabled && pending && !active`), one call of
`VirtualNVIC_ProcessInterrupts` dispatches exactly the eligible line `k` of
numerically lowest priority, ties resolved to the lowest IRQ id; it clears
`pending` and sets `active` on `k` in the state handed to the handler, and
the dispatch ends by forcing `active` back to `false` on `k`. -/
theorem processInterrupts_dispatches_lowest (env : Nat → NVICState → NVICState)
    (s : NVICState) (hg : s.globalIrqEnabled = true)
    (hp : ∀ i, i < 240 → (s.lines i).priority ≤ 15)
    (he : ∃ j, j < 240 ∧ eligibleIRQ (s.lines j) = true) :
    ∃ k, find_highest_priority_pending s = some k ∧ k < 240 ∧
      eligibleIRQ (s.lines k) = true ∧
      (∀ j, j < 240 → eligibleIRQ (s.lines j) = true →
        (s.lines k).priority ≤ (s.lines j).priority) ∧
      (∀ j, j < k → eligibleIRQ (s.lines j) = true →
        (s.lines k).priority < (s.lines j).priority) ∧
      ((updateLine s k fun irq => { irq with pending := false, active := true }).lines k).pending
        = false ∧
      ((updateLine s k fun irq => { irq with pending := false, active := true }).lines k).active
        = true ∧
      VirtualNVIC_ProcessInterrupts env s
        = updateLine
            (if ((updateLine s k fun irq =>
                  { irq with pending := false, active := true }).lines k).hasHandler = true
             then env k (updateLine s k fun irq => { irq with pending := false, active := true })
             else updateLine s k fun irq => { irq with pending := false, active := true })
            k (fun irq => { irq with active := false }) := by
  obtain ⟨j0, hj0, helig0⟩ := he
  cases hfind : find_highest_priority_pending s with
  | none =>
    have := find_none_spec s hfind hp j0 hj0
    rw [helig0] at this
    cases this
  | some k =>
    obtain ⟨hk240, helig, hle, hlt⟩ := find_spec s k hfind
    refine ⟨k, rfl, hk240, helig, hle, hlt, ?_, ?_, ?_⟩
    · simp [updateLine]
    · simp [updateLine]
    · unfold VirtualNVIC_ProcessInterrupts
      rw [if_neg (by simp [hg]), hfind]

/-- A sample NVIC state for the C1 witness: lines 5 and 9 are both eligible
with equal priority 3, everything else idle. -/
def nvicSample : NVICState :=
  { nvicInit with lines := fun i =>
      if i = 5 then
        { enabled := true, pending := true, active := false, priority := 3, hasHandler := false }
      else if i = 9 then
        { enabled := true, pending := true, active := false, priority := 3, hasHandler := true }
      else defaultIRQ }

/-- Witness for C1 at `nvicSample` with the identity handler environment:
the tie between lines 5 and 9 goes to line 5. -/
theorem processInterrupts_dispatches_lowest_witness :
    (nvicSample.globalIrqEnabled = true ∧
      (∀ i, i < 240 → (nvicSample.lines i).priority ≤ 15) ∧
      (∃ j, j < 240 ∧ eligibleIRQ (nvicSample.lines j) = true)) ∧
    (∃ k, find_highest_priority_pending nvicSample = some k ∧ k < 240 ∧
      eligibleIRQ (nvicSample.lines k) = true ∧
      (∀ j, j < 240 → eligibleIRQ (nvicSample.lines j) = true →
        (nvicSample.lines k).priority ≤ (nvicSample.lines j).priority) ∧
      (∀ j, j < k → eligibleIRQ (nvicSample.lines j) = true →
        (nvicSample.lines k).priority < (nvicSample.lines j).priority) ∧
      ((updateLine nvicSample k fun irq =>
          { irq with pending := false, active := true }).lines k).pending = false ∧
      ((updateLine nvicSample k fun irq =>
          { irq with pending := false, active := true }).lines k).active = true ∧
      VirtualNVIC_ProcessInterrupts (fun _ t => t) nvicSample
        = updateLine
            (if ((updateLine nvicSample k fun irq =>
                  { irq with pending := false, active := true }).lines k).hasHandler = true
             then (fun _ t => t) k (updateLine nvicSample k fun irq =>
                  { irq with pending := false, active := true })
             else updateLine nvicSample k fun irq =>
                  { irq with pending := false, active := true })
            k (fun irq => { irq with active := false })) :=
  ⟨⟨rfl, by decide, ⟨5, by norm_num, by decide⟩⟩,
    processInterrupts_dispatches_lowest (fun _ t => t) nvicSample rfl (by decide)
      ⟨5, by norm_num, by decide⟩⟩

/-- The loop counter of `ProcessAllPending` never exceeds 101: the loop body
increments it once per dispatch and exits as soon as it passes 100, so the
final count is the entry count, or at most one past the cap. -/
theorem processAllLoop_count_le (env : Nat → NVICState → NVICState) :
    ∀ n s p, 101 - p ≤ n → p ≤ 100 → (processAllLoop env s p).2 ≤ 101 := by
  intro n
  induction n with
  | zero =>
    intro s p h1 h2
    omega
  | succ n ih =>
    intro s p h1 h2
    unfold processAllLoop
    split
    · show p ≤ 101
      omega
    · split
      · show p + 1 ≤ 101
        omega
      · exact ih _ (p + 1) (by omega) (by omega)

/-- Claim C4 (amended): `ProcessAllPending` terminates on every starting
state and handler behaviour (it is a total function of the embedding), and
performs at most 101 dispatch iterations. -/
theorem processAllPending_at_most_101 (env : Nat → NVICState → NVICState) (s : NVICState) :
    (VirtualNVIC_ProcessAllPending env s).2 ≤ 101 :=
  processAllLoop_count_le env 101 s 0 (by omega) (by omega)

/-- A handler environment in which the handler of every line re-marks its own
line pending. -/
def envRepend : Nat → NVICState → NVICState := fun k t =>
  updateLine t k fun irq => { irq with pending := true }

/-- A state with a single enabled, pending line 0 of priority 0 whose handler
re-pends it. -/
def nvicRepend : NVICState :=
  { nvicInit with lines := fun i =>
      if i = 0 then
        { enabled := true, pending := true, active := false, priority := 0, hasHandler := true }
      else defaultIRQ }

/-- Under the re-pending handler, one dispatch returns the state to exactly
where it started. -/
theorem processInterrupts_nvicRepend :
    VirtualNVIC_ProcessInterrupts envRepend nvicRepend = nvicRepend := by
  have hfind : find_highest_priority_pending nvicRepend = some 0 := by decide
  unfold VirtualNVIC_ProcessInterrupts
  rw [if_neg (by decide : ¬ (nvicRepend.globalIrqEnabled = false)), hfind]
  show updateLine
      (if ((updateLine nvicRepend 0 fun irq =>
            { irq with pending := false, active := true }).lines 0).hasHandler = true
       then envRepend 0 (updateLine nvicRepend 0 fun irq =>
            { irq with pending := false, active := true })
       else updateLine nvicRepend 0 fun irq =>
            { irq with pending := false, active := true })
      0 (fun irq => { irq with active := false }) = nvicRepend
  rw [if_pos (by decide)]
  apply NVICState.ext
  · funext i
    by_cases hi : i = 0
    · subst hi
      rfl
    · simp [updateLine, envRepend, nvicRepend, hi]
  · rfl
  · rfl
  · rfl

/-- Starting the loop at any count `p ≤ 100` on the self-re-pending state
runs it all the way to the cap, for a final count of 101. -/
theorem processAllLoop_repend :
    ∀ n p, p + n = 101 → 1 ≤ n → (processAllLoop envRepend nvicRepend p).2 = 101 := by
  intro n
  induction n with
  | zero =>
    intro p h h1
    omega
  | succ n ih =>
    intro p h _
    have hfind : find_highest_priority_pending nvicRepend = some 0 := by decide
    unfold processAllLoop
    rw [hfind]
    by_cases hc : 100 < p + 1
    · rw [if_pos hc]
      show p + 1 = 101
      omega
    · rw [if_neg hc, processInterrupts_nvicRepend]
      exact ih (p + 1) (by omega) (by omega)

/-- Claim C4 (counterexample): on `nvicRepend`, whose handler re-marks its
own line pending on every dispatch, `ProcessAllPending` performs 101
dispatch iterations — the safety cap `processed > 100` stops the loop only
after the 101st `ProcessInterrupts` call, exceeding the claimed bound of
100. -/
theorem processAllPending_101_counterexample :
    (VirtualNVIC_ProcessAllPending envRepend nvicRepend).2 = 101 ∧
    ¬ ((VirtualNVIC_ProcessAllPending envRepend nvicRepend).2 ≤ 100) := by
  have h : (VirtualNVIC_ProcessAllPending envRepend nvicRepend).2 = 101 :=
    processAllLoop_repend 101 0 (by omega) (by omega)
  exact ⟨h, by omega⟩

/-- With injection enabled, a hitting draw fires the NVIC fault gate and only
sets `last_error`. -/
theorem nvicInject_some (s : NVICState) (e : Nat) (h : s.errorInjectionEnabled = true) :
    nvicInject s (some e) = some { s with lastError := e } := by
  unfold nvicInject
  simp [h]

/-- Claim C5: validation and the fault-injection roll happen before any
mutation: when the roll rejects a call of `WritePin`, `ConfigurePin`,
`EnableIRQ`, `SetPriority` or `SetPending` (injection enabled, arguments in
range, clock on for `ConfigurePin`), the call reports failure and every
`Pin` / `IRQLine` is exactly as it was — only `last_error` changes. -/
theorem rejected_roll_leaves_state (sg : GPIOState) (sn : NVICState)
    (e p n v mode ot sp pu prio irq : Nat)
    (hp : p < 9) (hn : n < 16) (hirq : irq < 240) (hprio : prio ≤ 15)
    (hgi : sg.errorInjectionEnabled = true) (hni : sn.errorInjectionEnabled = true)
    (hclk : (sg.ports p).clockEnabled = true) :
    ((VirtualGPIO_WritePin sg p n v (some e)).1 = false ∧
      (VirtualGPIO_WritePin sg p n v (some e)).2.ports = sg.ports) ∧
    ((VirtualGPIO_ConfigurePin sg p n mode ot sp pu (some e)).1 = false ∧
      (VirtualGPIO_ConfigurePin sg p n mode ot sp pu (some e)).2.ports = sg.ports) ∧
    ((VirtualNVIC_EnableIRQ sn irq (some e)).1 = false ∧
      (VirtualNVIC_EnableIRQ sn irq (some e)).2.lines = sn.lines) ∧
    ((VirtualNVIC_SetPriority sn irq prio (some e)).1 = false ∧
      (VirtualNVIC_SetPriority sn irq prio (some e)).2.lines = sn.lines) ∧
    ((VirtualNVIC_SetPending sn irq (some e)).1 = false ∧
      (VirtualNVIC_SetPending sn irq (some e)).2.lines = sn.lines) := by
  have hp' : ¬ MAX_GPIO_PORTS ≤ p := by simp only [MAX_GPIO_PORTS]; omega
  have hn' : ¬ MAX_GPIO_PINS ≤ n := by simp only [MAX_GPIO_PINS]; omega
  have hgrange : ¬ (MAX_GPIO_PORTS ≤ p ∨ MAX_GPIO_PINS ≤ n) := by
    simp only [MAX_GPIO_PORTS, MAX_GPIO_PINS]; omega
  have hirq' : ¬ MAX_IRQ_LINES ≤ irq := by simp only [MAX_IRQ_LINES]; omega
  have hprio' : ¬ MAX_PRIORITY < prio := by simp only [MAX_PRIORITY]; omega
  refine ⟨⟨?_, ?_⟩, ⟨?_, ?_⟩, ⟨?_, ?_⟩, ⟨?_, ?_⟩, ⟨?_, ?_⟩⟩ <;>
    simp [VirtualGPIO_WritePin, VirtualGPIO_ConfigurePin, VirtualNVIC_EnableIRQ,
      VirtualNVIC_SetPriority, VirtualNVIC_SetPending, hp', hn', hgrange, hirq',
      hprio', hclk, gpioInject_some sg e hgi, nvicInject_some sn e hni]

/-- The initialised NVIC state with error injection switched on. -/
def nvicInjOn : NVICState := { nvicInit with errorInjectionEnabled := true }

/-- Witness for C5 at `(gpioInjClk, nvicInjOn)` with in-range arguments. -/
theorem rejected_roll_leaves_state_witness :
    ((0 : Nat) < 9 ∧ (0 : Nat) < 16 ∧ (7 : Nat) < 240 ∧ (3 : Nat) ≤ 15 ∧
      gpioInjClk.errorInjectionEnabled = true ∧ nvicInjOn.errorInjectionEnabled = true ∧
      (gpioInjClk.ports 0).clockEnabled = true) ∧
    ((VirtualGPIO_WritePin gpioInjClk 0 0 1 (some 1)).1 = false ∧
      (VirtualGPIO_WritePin gpioInjClk 0 0 1 (some 1)).2.ports = gpioInjClk.ports) ∧
    ((VirtualNVIC_SetPending nvicInjOn 7 (some 2)).1 = false ∧
      (VirtualNVIC_SetPending nvicInjOn 7 (some 2)).2.lines = nvicInjOn.lines) :=
  ⟨⟨by norm_num, by norm_num, by norm_num, by norm_num, rfl, rfl, rfl⟩,
    (rejected_roll_leaves_state gpioInjClk nvicInjOn 2 0 0 1 1 0 0 0 3 7
      (by norm_num) (by norm_num) (by norm_num) (by norm_num) rfl rfl rfl).1,
    (rejected_roll_leaves_state gpioInjClk nvicInjOn 2 0 0 1 1 0 0 0 3 7
      (by norm_num) (by norm_num) (by norm_num) (by norm_num) rfl rfl rfl).2.2.2.2⟩

/-- Claim C10: `VirtualNVIC_GetPriority` on an out-of-range IRQ number
(`≥ 240`) returns `MAX_PRIORITY = 15` instead of signalling an error; the C
function performs no write at all, which the embedding reflects by returning
only the priority value. -/
theorem getPriority_out_of_range (s : NVICState) (irq : Nat) (h : 240 ≤ irq) :
    VirtualNVIC_GetPriority s irq = 15 := by
  unfold VirtualNVIC_GetPriority
  rw [if_pos (by simp only [MAX_IRQ_LINES]; omega)]
  rfl

/-- Witness for C10 at `(nvicInit, IRQ 250)`. -/
theorem getPriority_out_of_range_witness :
    (240 : Nat) ≤ 250 ∧ VirtualNVIC_GetPriority nvicInit 250 = 15 :=
  ⟨by norm_num, getPriority_out_of_range nvicInit 250 (by norm_num)⟩

/-! ## HAL adapter (`sim_hal_wrapper.c`) -/

/-- The priority value computed by `HAL_NVIC_SetPriority` (lines 184-193 of
`sim_hal_wrapper.c`): the C expression
`uint8_t priority = (preempt_priority << 2) | (sub_priority & 0x3);` with
both arguments `uint32_t` (shift and or performed mod `2^32`, the assignment
truncating to `uint8_t`, i.e. mod 256), then `if (priority > 15) priority = 15;`. -/
def halPriorityValue (preempt sub : Nat) : Nat :=
  let priority :=
    ((((preempt % 4294967296) <<< 2) % 4294967296) ||| ((sub % 4294967296) &&& 3)) % 256
  if 15 < priority then 15 else priority

/-- `HAL_NVIC_SetPriority`: combines the two sub-fields and forwards the
result to `VirtualNVIC_SetPriority`. -/
def HAL_NVIC_SetPriority (s : NVICState) (irq preempt sub : Nat) (roll : Option Nat) :
    Bool × NVICState :=
  VirtualNVIC_SetPriority s irq (halPriorityValue preempt sub) roll

/-- Spec-side formula for claim C7, following the claim's words: combine via
`(preempt << 2) | sub` and clamp the result to 15. -/
def claimedPriorityValue (preempt sub : Nat) : Nat :=
  let v := (preempt <<< 2) ||| sub
  if 15 < v then 15 else v

/-- Claim C7 (counterexample): at `preempt = 0, sub = 5` the code masks the
sub-priority with `0x3` first, computing 1, while the claimed formula
`(preempt << 2) | sub` (clamped) gives 5; the value 1 is what reaches
`VirtualNVIC_SetPriority`. -/
theorem halPriority_counterexample :
    halPriorityValue 0 5 = 1 ∧ claimedPriorityValue 0 5 = 5 ∧
    halPriorityValue 0 5 ≠ claimedPriorityValue 0 5 ∧
    ((HAL_NVIC_SetPriority nvicInit 0 0 5 none).2.lines 0).priority = 1 := by
  refine ⟨by decide, by decide, by decide, ?_⟩
  show ((VirtualNVIC_SetPriority nvicInit 0 (halPriorityValue 0 5) none).2.lines 0).priority = 1
  rw [show halPriorityValue 0 5 = 1 from by decide]
  decide

/-- Or of a multiple of 4 with a value below 4 is plain addition (the low two
bits are disjoint from the rest). -/
theorem four_mul_lor_eq_add (b r : Nat) (h : r < 4) : 4 * b ||| r = 4 * b + r := by
  apply Nat.eq_of_testBit_eq
  intro j
  have hr : r < 2 ^ 2 := h
  have h0 : (0 : Nat) < 2 ^ 2 := by norm_num
  rw [Nat.testBit_lor]
  rw [show (4 : Nat) * b + r = 2 ^ 2 * b + r from by ring]
  rw [Nat.testBit_mul_pow_two_add _ hr]
  rw [show (4 : Nat) * b = 2 ^ 2 * b + 0 from by ring]
  rw [Nat.testBit_mul_pow_two_add _ h0]
  by_cases hj : j < 2
  · simp [hj]
  · have hrj : r < 2 ^ j := lt_of_lt_of_le h (by
      have h2j : (2 : Nat) ^ 2 ≤ 2 ^ j := Nat.pow_le_pow_right (by norm_num) (by omega)
      simpa using h2j)
    simp [hj, Nat.testBit_lt_two_pow hrj]

/-- Claim C7 (amended): the adapter combines the fields as
`(preempt << 2) | (sub & 0x3)`, truncates the result to `uint8_t`, clamps it
to 15, and passes that value — `min (4 * (preempt % 64) + sub % 4) 15` — to
`VirtualNVIC_SetPriority`. -/
theorem halPriority_masks_and_truncates (s : NVICState) (irq preempt sub : Nat)
    (roll : Option Nat) :
    halPriorityValue preempt sub = min (4 * (preempt % 64) + sub % 4) 15 ∧
    HAL_NVIC_SetPriority s irq preempt sub roll
      = VirtualNVIC_SetPriority s irq (min (4 * (preempt % 64) + sub % 4) 15) roll := by
  have hval : halPriorityValue preempt sub = min (4 * (preempt % 64) + sub % 4) 15 := by
    have hsub : (sub % 4294967296) &&& 3 = sub % 4 := by
      have h1 := Nat.and_pow_two_sub_one_eq_mod (sub % 4294967296) 2
      norm_num at h1
      omega
    have hshift : (preempt % 4294967296) <<< 2 = 4 * (preempt % 4294967296) := by
      rw [Nat.shiftLeft_eq]
      ring
    unfold halPriorityValue
    simp only []
    rw [hsub, hshift]
    rw [show (4294967296 : Nat) = 4 * 1073741824 from by norm_num,
      Nat.mul_mod_mul_left]
    rw [four_mul_lor_eq_add _ _ (Nat.mod_lt _ (by norm_num))]
    rw [Nat.min_def]
    split <;> split <;> omega
  exact ⟨hval, by simp only [HAL_NVIC_SetPriority, hval]⟩

end STM32Sim
